import Mathlib

/-!
Verification of the income-tax calculator (`src/lib/tax-calculations.ts`).

The source is a single pure function `calculateTax` over JavaScript numbers.
We embed it over `ℚ`: every arithmetic constant of the source is an exact
rational (`0.12 = 12/100`, `0.0481 = 481/10000`, ...), `Math.max`/`Math.min`
become `max`/`min`, and the ternary operators on the two boolean flags become
`if` on `Bool`.
-/

namespace TaxCalc

/-- The `TaxResults` record returned by `calculateTax`
(interface `TaxResults` in `src/lib/tax-calculations.ts`). -/
structure TaxResults where
  grossSalary : ℚ
  basicPay : ℚ
  standardDeduction : ℚ
  taxableIncome : ℚ
  incomeTax : ℚ
  cess : ℚ
  totalTax : ℚ
  netSalary : ℚ
  employeePF : ℚ
  employerPF : ℚ
  gratuityAmount : ℚ
  professionalTax : ℚ
  totalDeductions : ℚ
  inHandSalary : ℚ
  inHandSalaryPerMonth : ℚ
deriving Repr, DecidableEq

/-- Shallow embedding of `calculateTax` from `src/lib/tax-calculations.ts`,
line by line in the source's dependency order. -/
def calculateTax (grossSalary basicPayPercentage : ℚ)
    (employerPfIncluded considerGratuity : Bool) : TaxResults :=
  let STANDARD_DEDUCTION : ℚ := 75000
  let PF_RATE : ℚ := 12/100
  let CESS_RATE : ℚ := 4/100
  let GRATUITY_RATE : ℚ := 481/10000
  let actualBasicPayPercentage : ℚ := max 50 basicPayPercentage
  let basicPay : ℚ := grossSalary * (actualBasicPayPercentage / 100)
  let employeePF : ℚ := basicPay * PF_RATE
  let employerPF : ℚ := basicPay * PF_RATE
  let gratuityAmount : ℚ := if considerGratuity then basicPay * GRATUITY_RATE else 0
  let totalPFDeduction : ℚ := if employerPfIncluded then employeePF + employerPF else employeePF
  let netSalary : ℚ := grossSalary - gratuityAmount - totalPFDeduction
  let taxableIncome : ℚ := max 0 (grossSalary - STANDARD_DEDUCTION)
  let incomeTax : ℚ :=
      5/100 * max 0 (min taxableIncome 800000 - 400000) +
      10/100 * max 0 (min taxableIncome 1200000 - 800000) +
      15/100 * max 0 (min taxableIncome 1600000 - 1200000) +
      20/100 * max 0 (min taxableIncome 2000000 - 1600000) +
      25/100 * max 0 (min taxableIncome 2400000 - 2000000) +
      30/100 * max 0 (taxableIncome - 2400000)
  let cess : ℚ := incomeTax * CESS_RATE
  let professionalTax : ℚ := 12 * 200
  let totalTax : ℚ := incomeTax + cess + professionalTax
  let totalDeductions : ℚ := gratuityAmount + totalPFDeduction
  let inHandSalary : ℚ := netSalary - totalTax
  let inHandSalaryPerMonth : ℚ := inHandSalary / 12
  TaxResults.mk grossSalary basicPay STANDARD_DEDUCTION taxableIncome incomeTax
    cess totalTax netSalary employeePF employerPF gratuityAmount professionalTax
    totalDeductions inHandSalary inHandSalaryPerMonth

/-- The slab formula of `calculateTax` (lines 57-63 of the source), as a
function of the already-computed `taxableIncome`. -/
def incomeTaxOf (taxableIncome : ℚ) : ℚ :=
  5/100 * max 0 (min taxableIncome 800000 - 400000) +
  10/100 * max 0 (min taxableIncome 1200000 - 800000) +
  15/100 * max 0 (min taxableIncome 1600000 - 1200000) +
  20/100 * max 0 (min taxableIncome 2000000 - 1600000) +
  25/100 * max 0 (min taxableIncome 2400000 - 2000000) +
  30/100 * max 0 (taxableIncome - 2400000)

lemma incomeTax_eq_incomeTaxOf (g p : ℚ) (e c : Bool) :
    (calculateTax g p e c).incomeTax = incomeTaxOf ((calculateTax g p e c).taxableIncome) := rfl

/-- C1: for the call `calculateTax(1200000, 50, false, false)` the result has
`basicPay = 600000`, `employeePF = 72000`, `taxableIncome = 1125000`,
`incomeTax = 52500`, `cess = 2100`, `professionalTax = 2400`,
`totalTax = 57000`, `netSalary = 1128000`, `inHandSalary = 1071000`, and
`inHandSalaryPerMonth = 89250`. -/
theorem scenario1_values :
    (calculateTax 1200000 50 false false).basicPay = 600000 ∧
    (calculateTax 1200000 50 false false).employeePF = 72000 ∧
    (calculateTax 1200000 50 false false).taxableIncome = 1125000 ∧
    (calculateTax 1200000 50 false false).incomeTax = 52500 ∧
    (calculateTax 1200000 50 false false).cess = 2100 ∧
    (calculateTax 1200000 50 false false).professionalTax = 2400 ∧
    (calculateTax 1200000 50 false false).totalTax = 57000 ∧
    (calculateTax 1200000 50 false false).netSalary = 1128000 ∧
    (calculateTax 1200000 50 false false).inHandSalary = 1071000 ∧
    (calculateTax 1200000 50 false false).inHandSalaryPerMonth = 89250 := by
  norm_num [calculateTax, min_def, max_def]

/-- C10: for `calculateTax(0, 50, false, false)` the result has
`inHandSalary = -2400` and `inHandSalaryPerMonth = -200`: in-hand salary is
not floored at zero, the fixed annual professional tax of 2400 drives it
negative at zero gross salary. -/
theorem zero_gross_negative_inhand :
    (calculateTax 0 50 false false).inHandSalary = -2400 ∧
    (calculateTax 0 50 false false).inHandSalaryPerMonth = -200 := by
  norm_num [calculateTax, min_def, max_def]

/-- C5: two runs of `calculateTax` that differ only in the boolean flags
`employerPfIncluded` and `considerGratuity` agree on `taxableIncome`,
`incomeTax`, `cess` and `totalTax` (and on every other field outside
`netSalary`, `gratuityAmount`, `totalDeductions`, `inHandSalary`,
`inHandSalaryPerMonth`). -/
theorem flags_noninterference :
    ∀ (g p : ℚ) (e₁ c₁ e₂ c₂ : Bool),
    (calculateTax g p e₁ c₁).taxableIncome = (calculateTax g p e₂ c₂).taxableIncome ∧
    (calculateTax g p e₁ c₁).incomeTax = (calculateTax g p e₂ c₂).incomeTax ∧
    (calculateTax g p e₁ c₁).cess = (calculateTax g p e₂ c₂).cess ∧
    (calculateTax g p e₁ c₁).totalTax = (calculateTax g p e₂ c₂).totalTax ∧
    (calculateTax g p e₁ c₁).grossSalary = (calculateTax g p e₂ c₂).grossSalary ∧
    (calculateTax g p e₁ c₁).basicPay = (calculateTax g p e₂ c₂).basicPay ∧
    (calculateTax g p e₁ c₁).standardDeduction = (calculateTax g p e₂ c₂).standardDeduction ∧
    (calculateTax g p e₁ c₁).employeePF = (calculateTax g p e₂ c₂).employeePF ∧
    (calculateTax g p e₁ c₁).employerPF = (calculateTax g p e₂ c₂).employerPF ∧
    (calculateTax g p e₁ c₁).professionalTax = (calculateTax g p e₂ c₂).professionalTax :=
  fun _ _ _ _ _ _ => ⟨rfl, rfl, rfl, rfl, rfl, rfl, rfl, rfl, rfl, rfl⟩

/-- C6: `employeePF = employerPF`, both equal to `basicPay * 0.12`, and
`employerPF` does not depend on the `employerPfIncluded` flag. -/
theorem pf_equal :
    ∀ (g p : ℚ) (e c : Bool),
    (calculateTax g p e c).employeePF = (calculateTax g p e c).employerPF ∧
    (calculateTax g p e c).employeePF = (calculateTax g p e c).basicPay * (12/100) ∧
    (calculateTax g p e c).employerPF = (calculateTax g p e c).basicPay * (12/100) ∧
    (∀ e' : Bool, (calculateTax g p e c).employerPF = (calculateTax g p e' c).employerPF) :=
  fun _ _ _ _ => ⟨rfl, rfl, rfl, fun _ => rfl⟩

/-- C8: the accounting identity
`inHandSalary + totalTax + totalDeductions = grossSalary` holds for every
input of `calculateTax`. -/
theorem accounting_identity :
    ∀ (g p : ℚ) (e c : Bool),
    (calculateTax g p e c).inHandSalary + (calculateTax g p e c).totalTax +
      (calculateTax g p e c).totalDeductions = g := by
  intro g p e c
  cases e <;> cases c <;> simp only [calculateTax] <;> ring

/-- C4 counterexample: at `grossSalary = -100`, `basicPayPercentage = 100`,
the result has `basicPay = -100`, which is strictly below
`grossSalary * 0.5 = -50`: the floor `basicPay ≥ grossSalary * 0.5` fails for
negative gross salary. -/
theorem basicPay_floor_counterexample :
    (calculateTax (-100) 100 false false).basicPay = -100 ∧
    ¬ ((-100 : ℚ) * (1/2) ≤ (calculateTax (-100) 100 false false).basicPay) := by
  norm_num [calculateTax, max_def]

/-- C4 (amended): `basicPay = grossSalary * max(50, basicPayPercentage)/100`
always; `basicPay ≥ grossSalary * 0.5` whenever `grossSalary ≥ 0`; and
`basicPay = grossSalary` when `basicPayPercentage = 100`. -/
theorem basicPay_formula (g p : ℚ) (e c : Bool) :
    (calculateTax g p e c).basicPay = g * max 50 p / 100 ∧
    (0 ≤ g → g * (1/2) ≤ (calculateTax g p e c).basicPay) ∧
    (p = 100 → (calculateTax g p e c).basicPay = g) := by
  have hb : (calculateTax g p e c).basicPay = g * (max 50 p / 100) := rfl
  refine ⟨by rw [hb, mul_div_assoc], fun hg => ?_, fun hp => ?_⟩
  · rw [hb]
    nlinarith [le_max_left (50 : ℚ) p, hg]
  · subst hp
    rw [hb]
    norm_num [max_def]

/-- Witness for `basicPay_formula` at `grossSalary = 1000`,
`basicPayPercentage = 100`. -/
theorem basicPay_formula_witness :
    (0 : ℚ) ≤ 1000 ∧ (1000 : ℚ) * (1/2) ≤ (calculateTax 1000 100 false false).basicPay ∧
    (calculateTax 1000 100 false false).basicPay = 1000 :=
  ⟨by norm_num, (basicPay_formula 1000 100 false false).2.1 (by norm_num),
   (basicPay_formula 1000 100 false false).2.2 rfl⟩

/-- C7: for `grossSalary ≥ 0`, `taxableIncome = max(0, grossSalary - 75000)`,
and `taxableIncome` is monotone non-decreasing in `grossSalary`. -/
theorem taxableIncome_formula :
    ∀ (g p : ℚ) (e c : Bool), 0 ≤ g →
    (calculateTax g p e c).taxableIncome = max 0 (g - 75000) ∧
    ∀ g₂ : ℚ, g ≤ g₂ →
      (calculateTax g p e c).taxableIncome ≤ (calculateTax g₂ p e c).taxableIncome := by
  intro g p e c _
  refine ⟨rfl, fun g₂ h => ?_⟩
  show max 0 (g - 75000) ≤ max 0 (g₂ - 75000)
  exact max_le_max le_rfl (sub_le_sub_right h _)

/-- Witness for `taxableIncome_formula` at `grossSalary` 100000 and 200000. -/
theorem taxableIncome_formula_witness :
    (0 : ℚ) ≤ 100000 ∧ (100000 : ℚ) ≤ 200000 ∧
    (calculateTax 100000 50 false false).taxableIncome = max 0 (100000 - 75000) ∧
    (calculateTax 100000 50 false false).taxableIncome ≤
      (calculateTax 200000 50 false false).taxableIncome :=
  ⟨by norm_num, by norm_num,
   (taxableIncome_formula 100000 50 false false (by norm_num)).1,
   (taxableIncome_formula 100000 50 false false (by norm_num)).2 200000 (by norm_num)⟩

lemma incomeTaxOf_nonneg (t : ℚ) : 0 ≤ incomeTaxOf t := by
  unfold incomeTaxOf
  have h1 := mul_nonneg (by norm_num : (0:ℚ) ≤ 5/100) (le_max_left 0 (min t 800000 - 400000))
  have h2 := mul_nonneg (by norm_num : (0:ℚ) ≤ 10/100) (le_max_left 0 (min t 1200000 - 800000))
  have h3 := mul_nonneg (by norm_num : (0:ℚ) ≤ 15/100) (le_max_left 0 (min t 1600000 - 1200000))
  have h4 := mul_nonneg (by norm_num : (0:ℚ) ≤ 20/100) (le_max_left 0 (min t 2000000 - 1600000))
  have h5 := mul_nonneg (by norm_num : (0:ℚ) ≤ 25/100) (le_max_left 0 (min t 2400000 - 2000000))
  have h6 := mul_nonneg (by norm_num : (0:ℚ) ≤ 30/100) (le_max_left 0 (t - 2400000))
  linarith

/-- C9: for every input, also negative ones, `taxableIncome ≥ 0`,
`incomeTax ≥ 0`, `cess ≥ 0` and `totalTax ≥ 2400`. -/
theorem outputs_clamped :
    ∀ (g p : ℚ) (e c : Bool),
    0 ≤ (calculateTax g p e c).taxableIncome ∧
    0 ≤ (calculateTax g p e c).incomeTax ∧
    0 ≤ (calculateTax g p e c).cess ∧
    2400 ≤ (calculateTax g p e c).totalTax := by
  intro g p e c
  have hti : (calculateTax g p e c).incomeTax = incomeTaxOf (max 0 (g - 75000)) := rfl
  have h := incomeTaxOf_nonneg (max 0 (g - 75000))
  have hc := mul_nonneg h (by norm_num : (0:ℚ) ≤ 4/100)
  refine ⟨le_max_left _ _, by rw [hti]; exact h, ?_, ?_⟩
  · show 0 ≤ incomeTaxOf (max 0 (g - 75000)) * (4/100)
    exact hc
  · show 2400 ≤ incomeTaxOf (max 0 (g - 75000)) +
      incomeTaxOf (max 0 (g - 75000)) * (4/100) + 12 * 200
    linarith

lemma clamp_mono (L U a b : ℚ) (hab : a ≤ b) :
    max 0 (min a U - L) ≤ max 0 (min b U - L) :=
  max_le_max le_rfl (sub_le_sub_right (min_le_min hab le_rfl) L)

lemma tail_mono (L a b : ℚ) (hab : a ≤ b) :
    max 0 (a - L) ≤ max 0 (b - L) :=
  max_le_max le_rfl (sub_le_sub_right hab L)

lemma clamp_incr_le (L U a b : ℚ) (hab : a ≤ b) :
    max 0 (min b U - L) - max 0 (min a U - L) ≤ b - a := by
  simp only [min_def, max_def]
  split_ifs <;> linarith

lemma tail_incr_le (L a b : ℚ) (hab : a ≤ b) :
    max 0 (b - L) - max 0 (a - L) ≤ b - a := by
  simp only [max_def]
  split_ifs <;> linarith

lemma incomeTaxOf_mono : Monotone incomeTaxOf := by
  intro a b hab
  unfold incomeTaxOf
  have m1 := clamp_mono 400000 800000 a b hab
  have m2 := clamp_mono 800000 1200000 a b hab
  have m3 := clamp_mono 1200000 1600000 a b hab
  have m4 := clamp_mono 1600000 2000000 a b hab
  have m5 := clamp_mono 2000000 2400000 a b hab
  have m6 := tail_mono 2400000 a b hab
  linarith

lemma incomeTaxOf_incr_le (a b : ℚ) (hab : a ≤ b) :
    incomeTaxOf b - incomeTaxOf a ≤ 21/20 * (b - a) := by
  have h1 := clamp_incr_le 400000 800000 a b hab
  have h2 := clamp_incr_le 800000 1200000 a b hab
  have h3 := clamp_incr_le 1200000 1600000 a b hab
  have h4 := clamp_incr_le 1600000 2000000 a b hab
  have h5 := clamp_incr_le 2000000 2400000 a b hab
  have h6 := tail_incr_le 2400000 a b hab
  unfold incomeTaxOf
  linarith

lemma incomeTaxOf_lipschitz (a b : ℚ) :
    |incomeTaxOf a - incomeTaxOf b| ≤ 21/20 * |a - b| := by
  rcases le_total a b with h | h
  · have h1 := incomeTaxOf_incr_le a b h
    have h2 := incomeTaxOf_mono h
    rw [abs_sub_comm, abs_of_nonneg (by linarith), abs_sub_comm a b,
      abs_of_nonneg (by linarith)]
    linarith
  · have h1 := incomeTaxOf_incr_le b a h
    have h2 := incomeTaxOf_mono h
    rw [abs_of_nonneg (by linarith), abs_of_nonneg (by linarith)]
    linarith

/-- C2: the `incomeTax` of `calculateTax` is `incomeTaxOf` applied to the
computed `taxableIncome`; `incomeTaxOf` is non-decreasing and continuous
(epsilon-delta) everywhere, hence across the six bracket boundaries, and
`incomeTaxOf 400000 = 0`, `incomeTaxOf 800000 = 20000`,
`incomeTaxOf 1200000 = 60000`. -/
theorem incomeTax_continuous_monotone_boundaries :
    (∀ (g p : ℚ) (e c : Bool),
      (calculateTax g p e c).incomeTax = incomeTaxOf ((calculateTax g p e c).taxableIncome)) ∧
    Monotone incomeTaxOf ∧
    (∀ t ε : ℚ, 0 < ε → ∃ δ : ℚ, 0 < δ ∧
      ∀ s : ℚ, |s - t| < δ → |incomeTaxOf s - incomeTaxOf t| < ε) ∧
    incomeTaxOf 400000 = 0 ∧ incomeTaxOf 800000 = 20000 ∧
    incomeTaxOf 1200000 = 60000 := by
  refine ⟨fun g p e c => rfl, incomeTaxOf_mono,
    fun t ε hε => ⟨ε/2, by positivity, fun s hs => ?_⟩, ?_, ?_, ?_⟩
  · have h := incomeTaxOf_lipschitz s t
    have habs : (0:ℚ) ≤ |s - t| := abs_nonneg _
    calc |incomeTaxOf s - incomeTaxOf t| ≤ 21/20 * |s - t| := h
      _ < ε := by linarith
  all_goals norm_num [incomeTaxOf, min_def, max_def]

/-- Witness for `incomeTax_continuous_monotone_boundaries`: continuity at
`taxableIncome = 500000` with `ε = 1`. -/
theorem incomeTax_continuity_witness :
    (0 : ℚ) < 1 ∧ ∃ δ : ℚ, 0 < δ ∧
      ∀ s : ℚ, |s - 500000| < δ → |incomeTaxOf s - incomeTaxOf 500000| < 1 :=
  ⟨by norm_num,
   incomeTax_continuous_monotone_boundaries.2.2.1 500000 1 (by norm_num)⟩

/-- C3 counterexample: `calculateTax` at gross salaries 75000 and 175000
yields taxable incomes 0 and 100000, yet the same `incomeTax` of 0: the
income tax is not strictly increasing in taxable income (it is flat below
the first bracket bound of 400000). -/
theorem strict_increase_counterexample :
    (calculateTax 75000 50 false false).taxableIncome <
      (calculateTax 175000 50 false false).taxableIncome ∧
    ¬ ((calculateTax 75000 50 false false).incomeTax <
       (calculateTax 175000 50 false false).incomeTax) := by
  norm_num [calculateTax, min_def, max_def]

lemma clamp_strict (L U a b : ℚ) (hL : L ≤ a) (haU : a < U) (hab : a < b) :
    max 0 (min a U - L) < max 0 (min b U - L) := by
  have h1 : min a U = a := min_eq_left haU.le
  have h2 : a < min b U := lt_min hab haU
  rw [h1, max_eq_right (by linarith : (0:ℚ) ≤ a - L)]
  exact lt_of_lt_of_le (by linarith : a - L < min b U - L) (le_max_right _ _)

lemma tail_strict (L a b : ℚ) (hL : L ≤ a) (hab : a < b) :
    max 0 (a - L) < max 0 (b - L) := by
  rw [max_eq_right (by linarith : (0:ℚ) ≤ a - L)]
  exact lt_of_lt_of_le (by linarith : a - L < b - L) (le_max_right _ _)

/-- C3 (amended): `incomeTax` is `incomeTaxOf` of the computed
`taxableIncome`; `incomeTaxOf` is zero at or below the first bracket bound
of 400000 and strictly increasing from 400000 upward: for `400000 ≤ a < b`,
`incomeTaxOf a < incomeTaxOf b`. -/
theorem incomeTax_strict_on_brackets :
    (∀ (g p : ℚ) (e c : Bool),
      (calculateTax g p e c).incomeTax = incomeTaxOf ((calculateTax g p e c).taxableIncome)) ∧
    (∀ a : ℚ, a ≤ 400000 → incomeTaxOf a = 0) ∧
    (∀ a b : ℚ, 400000 ≤ a → a < b → incomeTaxOf a < incomeTaxOf b) := by
  refine ⟨fun g p e c => rfl, fun a ha => ?_, fun a b h400 hab => ?_⟩
  · have z1 : max 0 (min a 800000 - 400000) = 0 :=
      max_eq_left (by have := min_le_left a 800000; linarith)
    have z2 : max 0 (min a 1200000 - 800000) = 0 :=
      max_eq_left (by have := min_le_left a 1200000; linarith)
    have z3 : max 0 (min a 1600000 - 1200000) = 0 :=
      max_eq_left (by have := min_le_left a 1600000; linarith)
    have z4 : max 0 (min a 2000000 - 1600000) = 0 :=
      max_eq_left (by have := min_le_left a 2000000; linarith)
    have z5 : max 0 (min a 2400000 - 2000000) = 0 :=
      max_eq_left (by have := min_le_left a 2400000; linarith)
    have z6 : max 0 (a - 2400000) = 0 := max_eq_left (by linarith)
    unfold incomeTaxOf
    rw [z1, z2, z3, z4, z5, z6]
    ring
  · unfold incomeTaxOf
    rcases lt_or_le a 800000 with hc | hc
    · have s := clamp_strict 400000 800000 a b h400 hc hab
      have m2 := clamp_mono 800000 1200000 a b hab.le
      have m3 := clamp_mono 1200000 1600000 a b hab.le
      have m4 := clamp_mono 1600000 2000000 a b hab.le
      have m5 := clamp_mono 2000000 2400000 a b hab.le
      have m6 := tail_mono 2400000 a b hab.le
      linarith
    rcases lt_or_le a 1200000 with hd | hd
    · have s := clamp_strict 800000 1200000 a b hc hd hab
      have m1 := clamp_mono 400000 800000 a b hab.le
      have m3 := clamp_mono 1200000 1600000 a b hab.le
      have m4 := clamp_mono 1600000 2000000 a b hab.le
      have m5 := clamp_mono 2000000 2400000 a b hab.le
      have m6 := tail_mono 2400000 a b hab.le
      linarith
    rcases lt_or_le a 1600000 with he | he
    · have s := clamp_strict 1200000 1600000 a b hd he hab
      have m1 := clamp_mono 400000 800000 a b hab.le
      have m2 := clamp_mono 800000 1200000 a b hab.le
      have m4 := clamp_mono 1600000 2000000 a b hab.le
      have m5 := clamp_mono 2000000 2400000 a b hab.le
      have m6 := tail_mono 2400000 a b hab.le
      linarith
    rcases lt_or_le a 2000000 with hf | hf
    · have s := clamp_strict 1600000 2000000 a b he hf hab
      have m1 := clamp_mono 400000 800000 a b hab.le
      have m2 := clamp_mono 800000 1200000 a b hab.le
      have m3 := clamp_mono 1200000 1600000 a b hab.le
      have m5 := clamp_mono 2000000 2400000 a b hab.le
      have m6 := tail_mono 2400000 a b hab.le
      linarith
    rcases lt_or_le a 2400000 with hg | hg
    · have s := clamp_strict 2000000 2400000 a b hf hg hab
      have m1 := clamp_mono 400000 800000 a b hab.le
      have m2 := clamp_mono 800000 1200000 a b hab.le
      have m3 := clamp_mono 1200000 1600000 a b hab.le
      have m4 := clamp_mono 1600000 2000000 a b hab.le
      have m6 := tail_mono 2400000 a b hab.le
      linarith
    · have s := tail_strict 2400000 a b hg hab
      have m1 := clamp_mono 400000 800000 a b hab.le
      have m2 := clamp_mono 800000 1200000 a b hab.le
      have m3 := clamp_mono 1200000 1600000 a b hab.le
      have m4 := clamp_mono 1600000 2000000 a b hab.le
      have m5 := clamp_mono 2000000 2400000 a b hab.le
      linarith

/-- Witness for `incomeTax_strict_on_brackets`: flat at 300000, strictly
increasing from 400000 to 500000. -/
theorem incomeTax_strict_witness :
    (300000 : ℚ) ≤ 400000 ∧ incomeTaxOf 300000 = 0 ∧
    (400000 : ℚ) ≤ 400000 ∧ (400000 : ℚ) < 500000 ∧
    incomeTaxOf 400000 < incomeTaxOf 500000 :=
  ⟨by norm_num, incomeTax_strict_on_brackets.2.1 300000 (by norm_num),
   by norm_num, by norm_num,
   incomeTax_strict_on_brackets.2.2 400000 500000 (by norm_num) (by norm_num)⟩

end TaxCalc
